import Mathlib

/-!
Verification of the notification-delivery backend (src/main.py).

The Python source is shallowly embedded: environment variables become an
explicit read-only `Env` record of `Option String` fields (None = unset),
outbound network effects become oracle parameters (`HttpOutcome` for the
SendGrid REST call, a per-stage oracle for the SMTP session), log output
becomes a `List LogEntry`, and a Python exception that escapes a function
becomes `Except.error`.  Functions that catch every exception return
`Except.ok` results only.
-/

namespace Backend

/-- Environment-variable store: `none` models an unset variable, `some s`
a variable set to the string `s` (possibly empty). -/
structure Env where
  SENDGRID_API_KEY : Option String := none
  EMAIL_FROM : Option String := none
  EMAIL_FROM_NAME : Option String := none
  EMAIL_TO : Option String := none
  SMTP_HOST : Option String := none
  SMTP_PORT : Option String := none
  SMTP_USER : Option String := none
  SMTP_PASS : Option String := none
  SMTP_STARTTLS : Option String := none
deriving Repr, DecidableEq

/-- Python truthiness of an optional string: `None` and `""` are falsy. -/
def pyTruthy : Option String → Bool
  | none => false
  | some s => s != ""

/-- Python `x or d` for an optional string `x` and a string default `d`. -/
def pyOrS (o : Option String) (d : String) : String :=
  if pyTruthy o then o.getD d else d

/-- Whether the character list `p` is a prefix of the first argument. -/
def charsStartWith : List Char → List Char → Bool
  | _, [] => true
  | [], _ :: _ => false
  | c :: cs, p :: ps => c == p && charsStartWith cs ps

/-- Whether the character list `pat` occurs inside the first argument
(Python `pat in s`). -/
def charsContain : List Char → List Char → Bool
  | [], pat => charsStartWith [] pat
  | c :: rest, pat => charsStartWith (c :: rest) pat || charsContain rest pat

/-- The value of one decimal digit, `none` for a non-digit. -/
def digitVal (c : Char) : Option Nat :=
  if c.isDigit then some (c.toNat - 48) else none

/-- Reads a non-empty all-digit character list as a number; `acc` carries
the digits read so far (`none` before the first one). -/
def digitsToNat : List Char → Option Nat → Option Nat
  | [], acc => acc
  | c :: rest, acc =>
    match digitVal c, acc with
    | some d, some a => digitsToNat rest (some (a * 10 + d))
    | some d, none => digitsToNat rest (some d)
    | none, _ => none

/-- Python `int(s)`: strips surrounding whitespace and parses an optional
sign followed by at least one digit; any other shape raises `ValueError`
(modelled as `none`). -/
def pyInt (s : String) : Option Int :=
  let l := ((s.data.dropWhile Char.isWhitespace).reverse.dropWhile
    Char.isWhitespace).reverse
  match l with
  | [] => none
  | c :: rest =>
    if c == '-' then (digitsToNat rest none).map (fun n => -(n : Int))
    else if c == '+' then (digitsToNat rest none).map (fun n => (n : Int))
    else (digitsToNat l none).map (fun n => (n : Int))

/-- Python slicing `s[:n]` on a string (by characters). -/
def pySlice (s : String) (n : Nat) : String :=
  String.mk (s.data.take n)

/-- Python `s.lower() == "true"` (ASCII lowering, as the settings use
only ASCII values). -/
def pyLowerIsTrue (s : String) : Bool :=
  s.data.map Char.toLower == "true".data

/-- Outcome of the single `requests.post` the SendGrid sender performs:
either an HTTP response (status code and body text) or a raised
transport-level exception. -/
inductive HttpOutcome where
  | response (status : Nat) (body : String)
  | exn (msg : String)
deriving Repr, DecidableEq

/-- Events emitted through the module logger, abstracted per call site. -/
inductive LogEntry where
  | infoSendgridAccepted
  | warnSendgridFailed (status : Nat) (bodyTruncated : String)
  | excSendgrid (msg : String)
  | infoSmtpSent
  | excSmtp (msg : String)
  | warnNoProvider (msg : String)
deriving Repr, DecidableEq

/-- Result of `send_email_via_sendgrid`: how many HTTP POSTs were
performed, the boolean return value, and the log entries produced.  The
Python function catches every exception, so the return value is a plain
`Bool`. -/
structure RestResult where
  calls : Nat
  ok : Bool
  log : List LogEntry
deriving Repr, DecidableEq

/-- `send_email_via_sendgrid` from src/main.py lines 80-107. -/
def send_email_via_sendgrid (env : Env) (http : HttpOutcome)
    (to_email subject html_content : String) : RestResult :=
  if pyTruthy env.SENDGRID_API_KEY = false then
    ⟨0, false, []⟩
  else
    match http with
    | .response status body =>
      if status = 200 ∨ status = 202 then
        ⟨1, true, [LogEntry.infoSendgridAccepted]⟩
      else
        ⟨1, false, [LogEntry.warnSendgridFailed status (pySlice body 200)]⟩
    | .exn m => ⟨1, false, [LogEntry.excSendgrid m]⟩

/-- The successive operations of an SMTP session in src/main.py
lines 133-138. -/
inductive SmtpStage where
  | connect
  | starttls
  | login
  | sendmail
  | quit
deriving Repr, DecidableEq

/-- Runs the listed SMTP operations in order against an oracle giving each
operation's outcome (`none` = succeeds, `some m` = raises `m`).  Returns
the operations actually attempted and the first raised exception, if
any; operations after a raise are not attempted. -/
def runSmtpSession (oracle : SmtpStage → Option String) :
    List SmtpStage → List SmtpStage × Option String
  | [] => ([], none)
  | st :: rest =>
    match oracle st with
    | some m => ([st], some m)
    | none =>
      let r := runSmtpSession oracle rest
      (st :: r.1, r.2)

/-- The operation sequence the try-block of `send_email_via_smtp`
executes: connect, optional STARTTLS, login, sendmail, quit. -/
def smtpStages (use_tls : Bool) : List SmtpStage :=
  [SmtpStage.connect] ++ (if use_tls then [SmtpStage.starttls] else []) ++
    [SmtpStage.login, SmtpStage.sendmail, SmtpStage.quit]

/-- Result of `send_email_via_smtp`: an `Except.error` models an exception
escaping the function, `trace` the SMTP operations attempted, `log` the
logger output. -/
structure SmtpResult where
  result : Except String Bool
  trace : List SmtpStage
  log : List LogEntry

/-- `send_email_via_smtp` from src/main.py lines 110-143.  Note that the
`int(os.getenv("SMTP_PORT", "587"))` parse happens before the credential
check and outside the try-block, so a malformed `SMTP_PORT` raises
`ValueError` out of the function. -/
def send_email_via_smtp (env : Env) (oracle : SmtpStage → Option String)
    (to_email subject html_content : String) : SmtpResult :=
  let host := env.SMTP_HOST
  match pyInt (env.SMTP_PORT.getD "587") with
  | none => ⟨Except.error "ValueError: invalid literal for int() with base 10", [], []⟩
  | some _port =>
    let user := env.SMTP_USER
    let password := env.SMTP_PASS
    let use_tls := pyLowerIsTrue (env.SMTP_STARTTLS.getD "true")
    let _from_email := env.EMAIL_FROM.getD (pyOrS user "noreply@neonlabs.app")
    if ¬(pyTruthy host = true ∧ pyTruthy user = true ∧ pyTruthy password = true) then
      ⟨Except.ok false, [], []⟩
    else
      let r := runSmtpSession oracle (smtpStages use_tls)
      match r.2 with
      | some m => ⟨Except.ok false, r.1, [LogEntry.excSmtp m]⟩
      | none => ⟨Except.ok true, r.1, [LogEntry.infoSmtpSent]⟩

/-- The literal message of the no-provider warning at src/main.py
line 154. -/
def noProviderWarning : String :=
  "No email provider configured. Set SENDGRID_API_KEY or SMTP_* env vars to enable emails."

/-- Result of `send_notification`: overall outcome (`Except.error` models
an exception escaping, which happens only when the SMTP sender raises),
the number of invocations of each provider's network path, and the
combined log. -/
structure DispatchResult where
  result : Except String Bool
  restCalls : Nat
  smtpCalls : Nat
  log : List LogEntry

/-- `send_notification` from src/main.py lines 146-155: try SendGrid when
`SENDGRID_API_KEY` is truthy and return `true` on success; otherwise fall
through to SMTP when `SMTP_HOST`, `SMTP_USER` and `SMTP_PASS` are all
truthy; otherwise warn and return `false`.  (When the API key is falsy
the REST sender is not invoked; its embedded no-key result `⟨0,false,[]⟩`
coincides with not calling it.) -/
def send_notification (env : Env) (http : HttpOutcome)
    (oracle : SmtpStage → Option String) (to_email subject html : String) :
    DispatchResult :=
  let rest := send_email_via_sendgrid env http to_email subject html
  if pyTruthy env.SENDGRID_API_KEY = true ∧ rest.ok = true then
    ⟨Except.ok true, rest.calls, 0, rest.log⟩
  else if pyTruthy env.SMTP_HOST = true ∧ pyTruthy env.SMTP_USER = true ∧
      pyTruthy env.SMTP_PASS = true then
    let s := send_email_via_smtp env oracle to_email subject html
    ⟨s.result, rest.calls, 1, rest.log ++ s.log⟩
  else
    ⟨Except.ok false, rest.calls, 0,
      rest.log ++ [LogEntry.warnNoProvider noProviderWarning]⟩

/-- The validated contact-form payload as persisted by `model_dump`. -/
structure Contactlead where
  name : String
  email : String
  message : Option String
  source : Option String
deriving Repr, DecidableEq

/-- The raw inbound contact-form body before validation. -/
structure RawLead where
  name : String
  email : String
  message : Option String
  source : Option String
deriving Repr, DecidableEq

/-- Modelled from the spec: the pydantic model `schemas.Contactlead` is
imported by src/main.py but schemas.py is not under src/.  Per the spec's
data model, a Lead's `source` is optional and defaults to "website" when
absent, so validation fills that default. -/
def Contactlead.ofRaw (r : RawLead) : Contactlead :=
  { name := r.name, email := r.email, message := r.message,
    source := some (r.source.getD "website") }

/-- An `HTTPException(status_code, detail)` raised to the framework. -/
structure HttpError where
  status : Nat
  detail : String
deriving Repr, DecidableEq

/-- The success body of `POST /api/contact`. -/
structure ContactResponse where
  status : String
  id : String
  email_sent : Bool
deriving Repr, DecidableEq

/-- Outcome of the external `create_document` persistence call: an
inserted-document id, or a raised exception. -/
inductive PersistOutcome where
  | inserted (id : String)
  | exn (msg : String)
deriving Repr, DecidableEq

/-- The notification recipient computed at src/main.py line 187. -/
def contact_to_email (env : Env) : String :=
  env.EMAIL_TO.getD "arslan.rai2662@gmail.com"

/-- The notification subject built at src/main.py line 188. -/
def contactSubject (lead : Contactlead) : String :=
  "New Website Lead: " ++ lead.name

/-- The notification HTML body built at src/main.py lines 189-196:
message line breaks become `<br/>` markup and a falsy `source` renders
as "website". -/
def contactHtml (lead : Contactlead) (inserted_id : String) : String :=
  "\n        <h2>New Contact Lead</h2>\n        <p><strong>Name:</strong> " ++
    lead.name ++
  "</p>\n        <p><strong>Email:</strong> " ++ lead.email ++
  "</p>\n        <p><strong>Message:</strong><br/>" ++
    ((pyOrS lead.message "").replace "\n" "<br/>") ++
  "</p>\n        <p><strong>Source:</strong> " ++ pyOrS lead.source "website" ++
  "</p>\n        <p><em>Lead ID:</em> " ++ inserted_id ++ "</p>\n        "

/-- Result of the `POST /api/contact` handler: the HTTP response (an
`HttpError` models the raised `HTTPException`), whether the dispatcher
was invoked, and the recipient it was invoked with. -/
structure ContactResult where
  response : Except HttpError ContactResponse
  dispatchInvoked : Bool
  dispatchedTo : Option String

/-- `create_contact_lead` from src/main.py lines 179-202.  The whole body
sits in a try-block whose handler re-raises any exception as
`HTTPException(500, str(e))`; the persisted document is exactly the
validated payload's `model_dump`. -/
def create_contact_lead (env : Env) (persist : PersistOutcome)
    (http : HttpOutcome) (oracle : SmtpStage → Option String)
    (payload : Contactlead) : ContactResult :=
  match persist with
  | .exn m => ⟨Except.error ⟨500, m⟩, false, none⟩
  | .inserted inserted_id =>
    let to_email := contact_to_email env
    let subject := contactSubject payload
    let html := contactHtml payload inserted_id
    let d := send_notification env http oracle to_email subject html
    match d.result with
    | .ok email_sent =>
      ⟨Except.ok ⟨"ok", inserted_id, email_sent⟩, true, some to_email⟩
    | .error m => ⟨Except.error ⟨500, m⟩, true, some to_email⟩

/-- Recipient resolution of the `POST /api/email/test` handler at
src/main.py line 165: `body.to or os.getenv("EMAIL_TO", literal)`. -/
def email_test_to (env : Env) (body_to : Option String) : String :=
  pyOrS body_to (env.EMAIL_TO.getD "arslan.rai2662@gmail.com")

/-- The fixed diagnostic HTML body of the email-test endpoint. -/
def emailTestHtml : String :=
  "\n    <h2>Email Test</h2>\n    <p>If you\x27re seeing this, your email provider is configured correctly.</p>\n    <p>Source: Backend test endpoint.</p>\n    "

/-- `email_test` from src/main.py lines 162-176. -/
def email_test (env : Env) (http : HttpOutcome)
    (oracle : SmtpStage → Option String) (body_to : Option String) :
    Except HttpError (Bool × String) :=
  let to_email := email_test_to env body_to
  let d := send_notification env http oracle to_email
    "Test: Email configuration" emailTestHtml
  match d.result with
  | .ok ok => Except.ok (ok, to_email)
  | .error m => Except.error ⟨500, m⟩

/-- Environment with every variable unset. -/
def envNone : Env := {}

/-- Environment with only the REST provider configured. -/
def envRest : Env := { SENDGRID_API_KEY := some "SG.key" }

/-- Environment with only the SMTP provider configured. -/
def envSmtpOnly : Env :=
  { SMTP_HOST := some "smtp.example.com", SMTP_USER := some "user",
    SMTP_PASS := some "pw" }

/-- SMTP provider configured but `SMTP_PORT` set to a non-numeric
string. -/
def envBadPort : Env :=
  { SMTP_HOST := some "smtp.example.com", SMTP_USER := some "user",
    SMTP_PASS := some "pw", SMTP_PORT := some "abc" }

/-- SMTP credentials absent and `SMTP_PORT` set to a non-numeric
string. -/
def envPortOnlyBad : Env := { SMTP_PORT := some "abc" }

/-- Environment with `EMAIL_TO` set. -/
def envEmailToSet : Env := { EMAIL_TO := some "ops@example.com" }

/-- Oracle under which every SMTP operation succeeds. -/
def smtpAllOk : SmtpStage → Option String := fun _ => none

/-- Oracle under which `login` raises and every other operation
succeeds. -/
def loginFailOracle : SmtpStage → Option String :=
  fun st => if st = SmtpStage.login then some "535 authentication failed" else none

/-- A sample validated lead. -/
def leadA : Contactlead := ⟨"A", "a@x.com", some "hi", some "website"⟩

/-- C1: failure isolation in the lead ingestion handler: if the
persistence call raises, `create_contact_lead` answers with an internal
error (HTTP 500) and the notification dispatcher is never invoked; if
persistence succeeds and the dispatcher returns a boolean `b`, the
handler returns the success response carrying `b` as `email_sent` —
in particular `b = false` does not fail the request. -/
theorem C1_failure_isolation (env : Env) (http : HttpOutcome)
    (oracle : SmtpStage → Option String) (payload : Contactlead) :
    (∀ m, create_contact_lead env (.exn m) http oracle payload =
      ⟨Except.error ⟨500, m⟩, false, none⟩) ∧
    (∀ idv b,
      (send_notification env http oracle (contact_to_email env)
          (contactSubject payload) (contactHtml payload idv)).result =
        Except.ok b →
      create_contact_lead env (.inserted idv) http oracle payload =
        ⟨Except.ok ⟨"ok", idv, b⟩, true, some (contact_to_email env)⟩) := by
  refine ⟨fun m => rfl, fun idv b hd => ?_⟩
  unfold create_contact_lead
  simp only [hd]

theorem C1_failure_isolation_witness :
    create_contact_lead envNone (.inserted "L1") (.exn "net down") smtpAllOk
        leadA =
      ⟨Except.ok ⟨"ok", "L1", false⟩, true, some (contact_to_email envNone)⟩ :=
  (C1_failure_isolation envNone (.exn "net down") smtpAllOk leadA).2 "L1"
    false rfl

/-- C2: dispatcher short-circuit: when `SENDGRID_API_KEY` is truthy and
the REST attempt succeeds (HTTP status 200 or 202), `send_notification`
returns `true` and the SMTP provider is never invoked. -/
theorem C2_rest_short_circuit (env : Env) (oracle : SmtpStage → Option String)
    (ta s h : String) (code : Nat) (body : String)
    (hkey : pyTruthy env.SENDGRID_API_KEY = true)
    (hcode : code = 200 ∨ code = 202) :
    (send_notification env (.response code body) oracle ta s h).result =
      Except.ok true ∧
    (send_notification env (.response code body) oracle ta s h).smtpCalls =
      0 := by
  have hok :
      (send_email_via_sendgrid env (.response code body) ta s h).ok = true := by
    simp [send_email_via_sendgrid, hkey, hcode]
  unfold send_notification
  simp [hkey, hok]

theorem C2_rest_short_circuit_witness :
    (send_notification envRest (.response 202 "") smtpAllOk "t@x.com" "s"
        "h").result = Except.ok true ∧
    (send_notification envRest (.response 202 "") smtpAllOk "t@x.com" "s"
        "h").smtpCalls = 0 :=
  C2_rest_short_circuit envRest smtpAllOk "t@x.com" "s" "h" 202 "" rfl
    (Or.inr rfl)

/-- C3: dispatcher fallback: when `SMTP_HOST`, `SMTP_USER` and
`SMTP_PASS` are all truthy and the REST provider is either unconfigured
(falsy API key) or its attempt returned `false`, `send_notification`
invokes the SMTP provider exactly once and returns its result. -/
theorem C3_smtp_fallback (env : Env) (http : HttpOutcome)
    (oracle : SmtpStage → Option String) (ta s h : String)
    (hhost : pyTruthy env.SMTP_HOST = true)
    (huser : pyTruthy env.SMTP_USER = true)
    (hpass : pyTruthy env.SMTP_PASS = true)
    (hrest : pyTruthy env.SENDGRID_API_KEY = false ∨
      (send_email_via_sendgrid env http ta s h).ok = false) :
    (send_notification env http oracle ta s h).smtpCalls = 1 ∧
    (send_notification env http oracle ta s h).result =
      (send_email_via_smtp env oracle ta s h).result := by
  have hno : ¬(pyTruthy env.SENDGRID_API_KEY = true ∧
      (send_email_via_sendgrid env http ta s h).ok = true) := by
    rcases hrest with hk | hk <;> simp [hk]
  unfold send_notification
  simp [hno, hhost, huser, hpass]

theorem C3_smtp_fallback_witness :
    (send_notification envSmtpOnly (.response 500 "err") smtpAllOk "t@x.com"
        "s" "h").smtpCalls = 1 ∧
    (send_notification envSmtpOnly (.response 500 "err") smtpAllOk "t@x.com"
        "s" "h").result =
      (send_email_via_smtp envSmtpOnly smtpAllOk "t@x.com" "s" "h").result :=
  C3_smtp_fallback envSmtpOnly (.response 500 "err") smtpAllOk "t@x.com" "s"
    "h" rfl rfl rfl (Or.inl rfl)

/-- C4: dispatcher with no provider: when the API key is falsy and the
SMTP credentials are not all truthy, `send_notification` invokes neither
provider (zero network calls), returns `false`, and logs exactly the
warning whose text names the missing configuration variables
`SENDGRID_API_KEY` and the `SMTP_*` family. -/
theorem C4_no_provider (env : Env) (http : HttpOutcome)
    (oracle : SmtpStage → Option String) (ta s h : String)
    (hkey : pyTruthy env.SENDGRID_API_KEY = false)
    (hsmtp : ¬(pyTruthy env.SMTP_HOST = true ∧ pyTruthy env.SMTP_USER = true ∧
      pyTruthy env.SMTP_PASS = true)) :
    send_notification env http oracle ta s h =
      ⟨Except.ok false, 0, 0, [LogEntry.warnNoProvider noProviderWarning]⟩ ∧
    charsContain noProviderWarning.data "SENDGRID_API_KEY".data = true ∧
    charsContain noProviderWarning.data "SMTP_".data = true := by
  have hrest : send_email_via_sendgrid env http ta s h = ⟨0, false, []⟩ := by
    simp [send_email_via_sendgrid, hkey]
  refine ⟨?_, by decide, by decide⟩
  unfold send_notification
  simp [hrest, hkey, hsmtp]

theorem C4_no_provider_witness :
    send_notification envNone (.response 0 "") smtpAllOk "t@x.com" "s" "h" =
      ⟨Except.ok false, 0, 0, [LogEntry.warnNoProvider noProviderWarning]⟩ ∧
    charsContain noProviderWarning.data "SENDGRID_API_KEY".data = true ∧
    charsContain noProviderWarning.data "SMTP_".data = true :=
  C4_no_provider envNone (.response 0 "") smtpAllOk "t@x.com" "s" "h" rfl
    (by decide)

/-- C5: REST sender contract: with a falsy API key
`send_email_via_sendgrid` returns `false` with no network call; with a
truthy key it performs one POST and returns `true` exactly when the
response status is 200 or 202, logging the response body truncated to
its first 200 characters on any other status; a raised transport
exception yields `false` and the function's total (`Bool`) return type
embeds that no exception propagates. -/
theorem C5_rest_contract (env : Env) (ta s h : String) :
    (pyTruthy env.SENDGRID_API_KEY = false →
      ∀ http, send_email_via_sendgrid env http ta s h = ⟨0, false, []⟩) ∧
    (pyTruthy env.SENDGRID_API_KEY = true →
      (∀ code body,
        (send_email_via_sendgrid env (.response code body) ta s h).calls =
          1 ∧
        ((send_email_via_sendgrid env (.response code body) ta s h).ok =
            true ↔ (code = 200 ∨ code = 202)) ∧
        (¬(code = 200 ∨ code = 202) →
          send_email_via_sendgrid env (.response code body) ta s h =
            ⟨1, false,
              [LogEntry.warnSendgridFailed code (pySlice body 200)]⟩)) ∧
      (∀ m, send_email_via_sendgrid env (.exn m) ta s h =
        ⟨1, false, [LogEntry.excSendgrid m]⟩)) := by
  constructor
  · intro hk http
    simp [send_email_via_sendgrid, hk]
  · intro hk
    refine ⟨fun code body => ⟨?_, ?_, fun hc => ?_⟩, fun m => ?_⟩
    · by_cases hc : code = 200 ∨ code = 202 <;>
        simp [send_email_via_sendgrid, hk, hc]
    · by_cases hc : code = 200 ∨ code = 202 <;>
        simp [send_email_via_sendgrid, hk, hc]
    · simp [send_email_via_sendgrid, hk, hc]
    · simp [send_email_via_sendgrid, hk]

theorem C5_rest_contract_witness :
    send_email_via_sendgrid envRest (.response 500 "quota exceeded") "t@x.com"
        "s" "h" =
      ⟨1, false,
        [LogEntry.warnSendgridFailed 500 (pySlice "quota exceeded" 200)]⟩ :=
  (((C5_rest_contract envRest "t@x.com" "s" "h").2 rfl).1 500
    "quota exceeded").2.2 (by decide)

/-- C6 counterexample: with the SMTP provider fully configured but
`SMTP_PORT` set to the non-numeric string "abc", the `int()` parse at
function entry raises before the try-block, so `send_email_via_smtp`
propagates an exception instead of returning a boolean. -/
theorem C6_counterexample :
    (send_email_via_smtp envBadPort smtpAllOk "t@x.com" "s" "h").result =
      Except.error "ValueError: invalid literal for int() with base 10" ∧
    (send_email_via_smtp envBadPort smtpAllOk "t@x.com" "s" "h").result ≠
      Except.ok true ∧
    (send_email_via_smtp envBadPort smtpAllOk "t@x.com" "s" "h").result ≠
      Except.ok false := by
  refine ⟨rfl, ?_, ?_⟩ <;> intro hc <;> exact Except.noConfusion hc

/-- C6 (amended): whenever `SMTP_PORT` is unset or parses as an integer,
no exception propagates out of `send_email_via_smtp` — the result is a
boolean — and, specifically, when the send sequence is entered and one
of its stages raises an exception `m`, that exception is caught,
logged (as the `excSmtp m` entry) and converted to the return value
`false`; a non-numeric `SMTP_PORT` raises at the configuration-read
stage, before the try-block, and does propagate. -/
theorem C6_smtp_exception_totality (env : Env)
    (oracle : SmtpStage → Option String) (ta s h : String) (p : Int)
    (hport : pyInt (env.SMTP_PORT.getD "587") = some p) :
    (∃ b, (send_email_via_smtp env oracle ta s h).result = Except.ok b) ∧
    (∀ m,
      (pyTruthy env.SMTP_HOST = true ∧ pyTruthy env.SMTP_USER = true ∧
        pyTruthy env.SMTP_PASS = true) →
      (runSmtpSession oracle
          (smtpStages (pyLowerIsTrue (env.SMTP_STARTTLS.getD "true")))).2 =
        some m →
      (send_email_via_smtp env oracle ta s h).result = Except.ok false ∧
      (send_email_via_smtp env oracle ta s h).log =
        [LogEntry.excSmtp m]) := by
  constructor
  · unfold send_email_via_smtp
    rw [hport]
    by_cases hcfg : pyTruthy env.SMTP_HOST = true ∧
        pyTruthy env.SMTP_USER = true ∧ pyTruthy env.SMTP_PASS = true
    · cases hr : (runSmtpSession oracle
          (smtpStages (pyLowerIsTrue (env.SMTP_STARTTLS.getD "true")))).2 <;>
        simp [hcfg, hr]
    · simp [hcfg]
  · intro m hcfg hr
    unfold send_email_via_smtp
    rw [hport]
    simp [hcfg, hr]

theorem C6_smtp_exception_totality_witness :
    (∃ b, (send_email_via_smtp envSmtpOnly loginFailOracle "t@x.com" "s"
        "h").result = Except.ok b) ∧
    (send_email_via_smtp envSmtpOnly loginFailOracle "t@x.com" "s"
        "h").result = Except.ok false ∧
    (send_email_via_smtp envSmtpOnly loginFailOracle "t@x.com" "s" "h").log =
      [LogEntry.excSmtp "535 authentication failed"] :=
  ⟨(C6_smtp_exception_totality envSmtpOnly loginFailOracle "t@x.com" "s" "h"
      587 (by decide)).1,
   (C6_smtp_exception_totality envSmtpOnly loginFailOracle "t@x.com" "s" "h"
      587 (by decide)).2 "535 authentication failed" (by decide) (by decide)⟩

/-- C7 counterexample: with host, username and password all absent but
`SMTP_PORT` set to the non-numeric string "abc", `send_email_via_smtp`
raises out of the function instead of returning `false`: the port parse
precedes the credential check. -/
theorem C7_counterexample :
    (send_email_via_smtp envPortOnlyBad smtpAllOk "t@x.com" "s" "h").result =
      Except.error "ValueError: invalid literal for int() with base 10" ∧
    (send_email_via_smtp envPortOnlyBad smtpAllOk "t@x.com" "s" "h").result ≠
      Except.ok false := by
  refine ⟨rfl, ?_⟩
  intro hc
  exact Except.noConfusion hc

/-- C7 (amended): whenever `SMTP_PORT` is unset or parses as an integer,
if any of `SMTP_HOST`, `SMTP_USER`, `SMTP_PASS` is falsy then
`send_email_via_smtp` returns `false` with an empty operation trace —
no network connection is attempted. -/
theorem C7_smtp_precondition (env : Env) (oracle : SmtpStage → Option String)
    (ta s h : String) (p : Int)
    (hport : pyInt (env.SMTP_PORT.getD "587") = some p)
    (habs : ¬(pyTruthy env.SMTP_HOST = true ∧ pyTruthy env.SMTP_USER = true ∧
      pyTruthy env.SMTP_PASS = true)) :
    send_email_via_smtp env oracle ta s h = ⟨Except.ok false, [], []⟩ := by
  unfold send_email_via_smtp
  rw [hport]
  simp [habs]

theorem C7_smtp_precondition_witness :
    send_email_via_smtp envNone smtpAllOk "t@x.com" "s" "h" =
      ⟨Except.ok false, [], []⟩ :=
  C7_smtp_precondition envNone smtpAllOk "t@x.com" "s" "h" 587 (by decide)
    (by decide)

/-- The `quit` operation is attempted in a session run exactly when
connect, the optional STARTTLS upgrade, login and sendmail all
succeed. -/
theorem runSmtp_quit_mem (oracle : SmtpStage → Option String) (tls : Bool) :
    SmtpStage.quit ∈ (runSmtpSession oracle (smtpStages tls)).1 ↔
      (oracle SmtpStage.connect = none ∧
       (tls = true → oracle SmtpStage.starttls = none) ∧
       oracle SmtpStage.login = none ∧
       oracle SmtpStage.sendmail = none) := by
  cases tls <;>
    cases h0 : oracle SmtpStage.connect <;>
    cases h1 : oracle SmtpStage.starttls <;>
    cases h2 : oracle SmtpStage.login <;>
    cases h3 : oracle SmtpStage.sendmail <;>
    cases h4 : oracle SmtpStage.quit <;>
    simp [smtpStages, runSmtpSession, h0, h1, h2, h3, h4]

/-- C8 counterexample: with the SMTP provider configured and the
`login` operation raising, the session has been opened (connect
succeeded and is in the trace) but `quit` is never attempted — the
function returns `false` without terminating the session, since the
except-branch has no quit call. -/
theorem C8_counterexample :
    (send_email_via_smtp envSmtpOnly loginFailOracle "t@x.com" "s" "h").trace =
      [SmtpStage.connect, SmtpStage.starttls, SmtpStage.login] ∧
    loginFailOracle SmtpStage.connect = none ∧
    SmtpStage.quit ∉
      (send_email_via_smtp envSmtpOnly loginFailOracle "t@x.com" "s" "h").trace ∧
    (send_email_via_smtp envSmtpOnly loginFailOracle "t@x.com" "s" "h").result =
      Except.ok false := by
  refine ⟨rfl, rfl, ?_, rfl⟩
  decide

/-- C8 (amended): in an execution of `send_email_via_smtp` that enters
the send sequence, the session is terminated via `quit` exactly when
connect, the optional TLS upgrade, login and sendmail all succeed; any
earlier failure returns `false` without `quit` being attempted. -/
theorem C8_session_termination (env : Env)
    (oracle : SmtpStage → Option String) (ta s h : String) (p : Int)
    (hport : pyInt (env.SMTP_PORT.getD "587") = some p)
    (hcfg : pyTruthy env.SMTP_HOST = true ∧ pyTruthy env.SMTP_USER = true ∧
      pyTruthy env.SMTP_PASS = true) :
    SmtpStage.quit ∈ (send_email_via_smtp env oracle ta s h).trace ↔
      (oracle SmtpStage.connect = none ∧
       (pyLowerIsTrue (env.SMTP_STARTTLS.getD "true") = true →
         oracle SmtpStage.starttls = none) ∧
       oracle SmtpStage.login = none ∧
       oracle SmtpStage.sendmail = none) := by
  unfold send_email_via_smtp
  rw [hport]
  have htr : (send_email_via_smtp env oracle ta s h).trace =
      (runSmtpSession oracle
        (smtpStages (pyLowerIsTrue (env.SMTP_STARTTLS.getD "true")))).1 := by
    unfold send_email_via_smtp
    rw [hport]
    cases hr : (runSmtpSession oracle
        (smtpStages (pyLowerIsTrue (env.SMTP_STARTTLS.getD "true")))).2 <;>
      simp [hcfg, hr]
  cases hr : (runSmtpSession oracle
      (smtpStages (pyLowerIsTrue (env.SMTP_STARTTLS.getD "true")))).2 <;>
    simpa [hcfg, hr] using
      runSmtp_quit_mem oracle (pyLowerIsTrue (env.SMTP_STARTTLS.getD "true"))

theorem C8_session_termination_witness :
    SmtpStage.quit ∈
      (send_email_via_smtp envSmtpOnly smtpAllOk "t@x.com" "s" "h").trace ↔
      (smtpAllOk SmtpStage.connect = none ∧
       (pyLowerIsTrue (envSmtpOnly.SMTP_STARTTLS.getD "true") = true →
         smtpAllOk SmtpStage.starttls = none) ∧
       smtpAllOk SmtpStage.login = none ∧
       smtpAllOk SmtpStage.sendmail = none) :=
  C8_session_termination envSmtpOnly smtpAllOk "t@x.com" "s" "h" 587
    (by decide) (by decide)

/-- Python `m or ""` is the identity on a string `m`. -/
theorem pyOrS_some_empty (m : String) : pyOrS (some m) "" = m := by
  by_cases hm : m = ""
  · subst hm
    rfl
  · simp [pyOrS, pyTruthy, hm]

/-- A non-empty default survives `x or default`. -/
theorem pyOrS_website : pyOrS (some "website") "website" = "website" := rfl

/-- C9: for a lead whose raw `source` is absent, validated and persisted
with both providers unconfigured and persistence returning `idv`, the
handler responds `{status := "ok", id := idv, email_sent := false}`; the
persisted record's `source` is "website"; the subject embeds the lead's
name; and the HTML body renders the message with line breaks converted
to `<br/>` markup and the source rendered as "website". -/
theorem C9_source_defaulting (idv nm em msg : String) :
    (create_contact_lead envNone (.inserted idv) (.response 0 "") smtpAllOk
        (Contactlead.ofRaw ⟨nm, em, some msg, none⟩)).response =
      Except.ok ⟨"ok", idv, false⟩ ∧
    (Contactlead.ofRaw ⟨nm, em, some msg, none⟩).source = some "website" ∧
    contactSubject (Contactlead.ofRaw ⟨nm, em, some msg, none⟩) =
      "New Website Lead: " ++ nm ∧
    contactHtml (Contactlead.ofRaw ⟨nm, em, some msg, none⟩) idv =
      "\n        <h2>New Contact Lead</h2>\n        <p><strong>Name:</strong> " ++
        nm ++
      "</p>\n        <p><strong>Email:</strong> " ++ em ++
      "</p>\n        <p><strong>Message:</strong><br/>" ++
        (msg.replace "\n" "<br/>") ++
      "</p>\n        <p><strong>Source:</strong> " ++ "website" ++
      "</p>\n        <p><em>Lead ID:</em> " ++ idv ++ "</p>\n        " := by
  refine ⟨rfl, rfl, rfl, ?_⟩
  simp [contactHtml, Contactlead.ofRaw, pyOrS_some_empty, pyOrS_website]

/-- C10 counterexample: with `EMAIL_TO` set to "ops@example.com" and the
test request body supplying the explicit recipient "", the email-test
endpoint resolves the recipient to "ops@example.com", not to the
supplied value: `body.to or ...` treats the falsy empty string as
absent, so an explicit empty `to` does not take precedence. -/
theorem C10_counterexample :
    email_test envEmailToSet (.response 0 "") smtpAllOk (some "") =
      Except.ok (false, "ops@example.com") ∧
    ("ops@example.com" : String) ≠ "" :=
  ⟨rfl, by decide⟩

/-- C10 (amended): whenever `EMAIL_TO` is unset, the contact handler
dispatches the notification to the literal "arslan.rai2662@gmail.com",
and the email-test endpoint resolves the same literal when the body
supplies no recipient; an explicit non-empty `to` in the test body takes
precedence over both, while an empty-string `to` is treated as absent. -/
theorem C10_default_recipient (env : Env) (http : HttpOutcome)
    (oracle : SmtpStage → Option String) (idv : String) (lead : Contactlead)
    (body_to : Option String) (v : String) :
    (env.EMAIL_TO = none →
      (create_contact_lead env (.inserted idv) http oracle lead).dispatchedTo =
        some "arslan.rai2662@gmail.com" ∧
      email_test_to env none = "arslan.rai2662@gmail.com") ∧
    (body_to = some v → v ≠ "" → email_test_to env body_to = v) := by
  constructor
  · intro hto
    constructor
    · unfold create_contact_lead
      cases hres : (send_notification env http oracle (contact_to_email env)
          (contactSubject lead) (contactHtml lead idv)).result <;>
        simp only [hres] <;> simp [contact_to_email, hto]
    · simp [email_test_to, pyOrS, pyTruthy, hto]
  · intro hb hv
    subst hb
    simp [email_test_to, pyOrS, pyTruthy, hv]

theorem C10_default_recipient_witness :
    (create_contact_lead envNone (.inserted "L1") (.response 0 "") smtpAllOk
        leadA).dispatchedTo = some "arslan.rai2662@gmail.com" ∧
    email_test_to envNone none = "arslan.rai2662@gmail.com" ∧
    email_test_to envEmailToSet (some "x@y.com") = "x@y.com" := by
  refine ⟨?_, ?_, ?_⟩
  · exact ((C10_default_recipient envNone (.response 0 "") smtpAllOk "L1"
      leadA none "x@y.com").1 rfl).1
  · exact ((C10_default_recipient envNone (.response 0 "") smtpAllOk "L1"
      leadA none "x@y.com").1 rfl).2
  · exact (C10_default_recipient envEmailToSet (.response 0 "") smtpAllOk "L1"
      leadA (some "x@y.com") "x@y.com").2 rfl (by decide)

end Backend
